import Mathlib

/-! Verification development for the g-search-mcp repository.

The TypeScript sources (src/google-search.ts and src/utils/storageConfig.ts)
are shallowly embedded below.  External capabilities (the Playwright browser,
the DOM of the target page, the random number generator, the host clock and
environment) are modelled as oracle inputs: every value the code reads from
the outside world is a parameter, and every effect the code performs on the
outside world (file writes, browser close decisions) is recorded in the
returned outcome.  Exceptions thrown by awaited browser operations are
modelled as oracle-selected error messages; the code either catches them
(then the model continues) or converts them into the synthetic diagnostic
response (the top-level catch of performSearch).
-/

namespace GSearch

/-- JavaScript string-or: `a || b` where `undefined` and `""` are falsy. -/
def jsOrStr (a : Option String) (b : String) : String :=
  match a with
  | none => b
  | some s => if s = "" then b else s

/-- Fingerprint configuration interface (google-search.ts lines 11-18). -/
structure FingerprintConfig where
  deviceName : String
  locale : String
  timezoneId : String
  colorScheme : String
  reducedMotion : String
  forcedColors : String
deriving DecidableEq, Repr

/-- Saved state file interface (google-search.ts lines 21-24). -/
structure SavedState where
  fingerprint : Option FingerprintConfig := none
  googleDomain : Option String := none
deriving DecidableEq, Repr

/-- Search result record ({title, link, snippet}). -/
structure SearchResult where
  title : String
  link : String
  snippet : String
deriving DecidableEq, Repr

/-- Search response record ({query, results}). -/
structure SearchResponse where
  query : String
  results : List SearchResult
deriving DecidableEq, Repr

/-- Search options; every field is optional exactly as in the TypeScript
interface, with the defaults applied inside googleSearch. -/
structure SearchOptions where
  limit : Option Nat := none
  timeout : Option Nat := none
  stateFile : Option String := none
  noSaveState : Option Bool := none
  locale : Option String := none
  debug : Option Bool := none

/-- Host machine signals read by the code from the environment: process.env.LANG,
process.env.STORAGE_STATE_PATH, os.homedir(), new Date().getTimezoneOffset(),
new Date().getHours(), os.platform(). -/
structure HostSignals where
  envLang : Option String
  envStoragePath : Option String
  homedir : String
  timezoneOffset : Int
  hour : Nat
  platform : String

/-- Timezone inference chain of getHostMachineConfig (lines 38-60): an
if/else-if chain over the UTC offset in minutes, defaulting to New York. -/
def tzOfOffset (timezoneOffset : Int) : String :=
  if timezoneOffset ≤ -480 ∧ timezoneOffset > -600 then "Asia/Shanghai"
  else if timezoneOffset ≤ -540 then "Asia/Tokyo"
  else if timezoneOffset ≤ -420 ∧ timezoneOffset > -480 then "Asia/Bangkok"
  else if timezoneOffset ≤ 0 ∧ timezoneOffset > -60 then "Europe/London"
  else if timezoneOffset ≤ 60 ∧ timezoneOffset > 0 then "Europe/Berlin"
  else if timezoneOffset ≤ 300 ∧ timezoneOffset > 240 then "America/New_York"
  else "America/New_York"

/-- getHostMachineConfig (google-search.ts lines 31-100).  The host signals
(LANG, timezone offset, hour, platform) are passed explicitly. -/
def getHostMachineConfig (userLocale : Option String) (envLang : Option String)
    (timezoneOffset : Int) (hour : Nat) (platform : String) : FingerprintConfig :=
  let systemLocale := jsOrStr userLocale (jsOrStr envLang "en-US")
  let timezoneId := tzOfOffset timezoneOffset
  let colorScheme := if hour ≥ 19 ∨ hour < 7 then "dark" else "light"
  let reducedMotion := "no-preference"
  let forcedColors := "none"
  let deviceName0 := "Desktop Chrome"
  let deviceName1 :=
    if platform = "darwin" then "Desktop Safari"
    else if platform = "win32" then "Desktop Edge"
    else if platform = "linux" then "Desktop Firefox"
    else deviceName0
  let _ := deviceName1
  let deviceName := "Desktop Chrome"
  { deviceName := deviceName, locale := systemLocale, timezoneId := timezoneId,
    colorScheme := colorScheme, reducedMotion := reducedMotion,
    forcedColors := forcedColors }

/-- Timezone table exactly as claim C6 words it: [−600,−480) → Shanghai,
otherwise ≤ −540 → Tokyo, [−480,−420) → Bangkok, (−60,0] → London,
(0,60] → Berlin, (240,300] → New York, unmatched → New York. -/
def claimedTimezoneTable (off : Int) : String :=
  if -600 ≤ off ∧ off < -480 then "Asia/Shanghai"
  else if off ≤ -540 then "Asia/Tokyo"
  else if -480 ≤ off ∧ off < -420 then "Asia/Bangkok"
  else if -60 < off ∧ off ≤ 0 then "Europe/London"
  else if 0 < off ∧ off ≤ 60 then "Europe/Berlin"
  else if 240 < off ∧ off ≤ 300 then "America/New_York"
  else "America/New_York"

/-- Timezone table as amended to match the source: (−600,−480] → Shanghai,
otherwise ≤ −600 → Tokyo, (−480,−420] → Bangkok, (−60,0] → London,
(0,60] → Berlin, (240,300] → New York, unmatched → New York. -/
def amendedTimezoneTable (off : Int) : String :=
  if -600 < off ∧ off ≤ -480 then "Asia/Shanghai"
  else if off ≤ -600 then "Asia/Tokyo"
  else if -480 < off ∧ off ≤ -420 then "Asia/Bangkok"
  else if -60 < off ∧ off ≤ 0 then "Europe/London"
  else if 0 < off ∧ off ≤ 60 then "Europe/Berlin"
  else if 240 < off ∧ off ≤ 300 then "America/New_York"
  else "America/New_York"

/-- getStorageStateDir (storageConfig.ts lines 11-23): STORAGE_STATE_PATH
environment override (JavaScript truthiness), else homedir/.local/mcp/share. -/
def getStorageStateDir (envPath : Option String) (homedir : String) : String :=
  jsOrStr envPath (homedir ++ "/.local/mcp/share")

/-- getStateFilePath (storageConfig.ts lines 30-33). -/
def getStateFilePath (envPath : Option String) (homedir : String)
    (filename : String) : String :=
  getStorageStateDir envPath homedir ++ "/" ++ filename

/-- Char-list infix scan: does pat occur contiguously inside the list? -/
def charsContain (pat : List Char) : List Char → Bool
  | [] => pat.isPrefixOf []
  | c :: rest => pat.isPrefixOf (c :: rest) || charsContain pat rest

/-- Substring test, modelling JavaScript String.prototype.includes. -/
def strContains (s pat : String) : Bool :=
  charsContain pat.data s.data

/-- Replace the first occurrence only, modelling JavaScript
String.prototype.replace with a string pattern (used for the
fingerprint sidecar path derivation, line 132). -/
def replaceFirstAux (pat rep : List Char) : List Char → List Char
  | [] => []
  | c :: rest =>
    if pat.isPrefixOf (c :: rest) then rep ++ (c :: rest).drop pat.length
    else c :: replaceFirstAux pat rep rest

/-- String wrapper for replaceFirstAux. -/
def replaceFirst (s pat rep : String) : String :=
  ⟨replaceFirstAux pat.data rep.data s.data⟩

/-- CAPTCHA URL markers (google-search.ts lines 395-401). -/
def captchaPatterns : List String :=
  ["google.com/sorry/index", "google.com/sorry", "recaptcha", "captcha",
   "unusual traffic"]

/-- Google domain list (lines 174-179). -/
def googleDomains : List String :=
  ["https://www.google.com", "https://www.google.co.uk",
   "https://www.google.ca", "https://www.google.com.au"]

/-- Contents of a file in the modelled filesystem: a browser storage snapshot
(opaque, written by context.storageState), a serialized SavedState record, or
bytes that do not parse as JSON. -/
inductive FileContent where
  | snapshot : FileContent
  | savedStateJson : SavedState → FileContent
  | malformed : FileContent
deriving DecidableEq, Repr

/-- The modelled filesystem: an association list from paths to contents. -/
abbrev FileSys := List (String × FileContent)

/-- fs.existsSync / fs.readFileSync combined: look a path up. -/
def lookupFS : FileSys → String → Option FileContent
  | [], _ => none
  | (q, c) :: rest, p => if q = p then some c else lookupFS rest p

/-- fs.writeFileSync / context.storageState: write a path. -/
def writeFS : FileSys → String → FileContent → FileSys
  | [], p, c => [(p, c)]
  | (q, d) :: rest, p, c =>
    if q = p then (p, c) :: rest else (q, d) :: writeFS rest p c

/-- JSON.parse of the fingerprint sidecar, as a SavedState record.  A storage
snapshot is valid JSON without a fingerprint field; malformed bytes throw. -/
def parseSavedState : FileContent → Except String SavedState
  | .savedStateJson s => .ok s
  | .snapshot => .ok {}
  | .malformed => .error "Unexpected token in JSON"

/-- State/fingerprint loading of googleSearch (lines 134-154).  The sidecar is
consulted only when the snapshot file exists; a parse failure is caught and
logged (second component true) and leaves savedState empty. -/
def loadSavedState (fs : FileSys) (stateFile fingerprintFile : String) :
    SavedState × Bool :=
  match lookupFS fs stateFile with
  | none => ({}, false)
  | some _ =>
    match lookupFS fs fingerprintFile with
    | none => ({}, false)
    | some c =>
      match parseSavedState c with
      | .ok s => (s, false)
      | .error _ => ({}, true)

/-- Raw data the page yields for one structured result element: the optional
title element text, the optional anchor href, the optional snippet text
(lines 814-830; a missing element or null textContent becomes ""). -/
structure RawElement where
  titleText : Option String
  anchorHref : Option String
  snippetText : Option String
deriving DecidableEq, Repr

/-- The $$eval callback for a structured selector strategy (lines 802-842):
slice to maxResults, map to {title, link, snippet}, filter out entries with
an empty title or link. -/
def extractStructured (els : List RawElement) (maxResults : Nat) :
    List SearchResult :=
  ((els.take maxResults).map (fun el =>
    { title := el.titleText.getD "", link := el.anchorHref.getD "",
      snippet := el.snippetText.getD "" }))
    |>.filter (fun it => it.title != "" && it.link != "")

/-- The strategy loop (lines 800-851): each entry is the reply of the page for one
selector triple, none meaning that $$eval threw (caught, next strategy); the
first strategy whose extraction is non-empty wins, else the result is []. -/
def tryStructured (strategies : List (Option (List RawElement)))
    (limit : Nat) : List SearchResult :=
  match strategies with
  | [] => []
  | none :: rest => tryStructured rest limit
  | some els :: rest =>
    let r := extractStructured els limit
    if r.length > 0 then r else tryStructured rest limit

/-- Raw data for one anchor in the fallback scan (lines 856-896): the href
attribute, whether the element is an HTMLAnchorElement, its absolute href
property, its text content, and the text contents of its ancestor chain. -/
structure FallbackAnchor where
  hrefAttr : Option String
  isAnchorElement : Bool
  hrefProp : String
  textContent : Option String
  ancestorTexts : List String
deriving DecidableEq, Repr

/-- The snippet synthesis loop of the fallback scan (lines 878-886): walk up
to 3 ancestors keeping the longest text that differs from the title. -/
def pickSnippet (title : String) (ancestorTexts : List String) : String :=
  (ancestorTexts.take 3).foldl
    (fun snippet text =>
      if text.length > snippet.length && text != title then text else snippet)
    ""

/-- The fallback $$eval callback (lines 856-896): filter anchors by href,
slice to maxResults, map to {title, link, snippet}, filter empty title/link. -/
def extractFallback (els : List FallbackAnchor) (maxResults : Nat) :
    List SearchResult :=
  ((((els.filter (fun el =>
      let href := el.hrefAttr.getD ""
      href.startsWith "http" && !(strContains href "google.com/") &&
        !(strContains href "accounts.google") &&
        !(strContains href "support.google"))).take maxResults).map
      (fun el =>
        { title := el.textContent.getD ""
          link := if el.isAnchorElement then el.hrefProp else el.hrefAttr.getD ""
          snippet := pickSnippet (el.textContent.getD "") el.ancestorTexts })).filter
    (fun it => it.title != "" && it.link != ""))

/-- Oracle for one attempt of performSearch: everything the outside world
(browser, page, target site, clock) decides during that attempt.  A
`some msg` in a Fails field means the corresponding awaited operation threw
with that message. -/
structure AttemptEnv where
  gotoFails : Option String
  navUrl : String
  respUrl : Option String
  temp1Fails : Option String
  wait1Fails : Option String
  searchBoxFound : Bool
  submitFails : Option String
  searchUrl : String
  temp2Fails : Option String
  wait2Fails : Option String
  resultsFound1 : Bool
  urlAtResults : String
  temp3Fails : Option String
  wait3Fails : Option String
  resultsFound2 : Bool
  structured : List (Option (List RawElement))
  fallback : Except String (List FallbackAnchor)
  storageStateFails : Bool
  fingerprintWriteFails : Bool
  randDomain : Nat

/-- Does a URL match any CAPTCHA marker (lines 539-541 and 660-662)? -/
def blockedUrl (u : String) : Bool :=
  captchaPatterns.any (fun p => strContains u p)

/-- First CAPTCHA checkpoint predicate (lines 403-407): current URL or the
navigation response URL matches a marker. -/
def isBlockedNav (a : AttemptEnv) : Bool :=
  captchaPatterns.any (fun p =>
    strContains a.navUrl p ||
      (match a.respUrl with
       | some u => strContains u p
       | none => false))

/-- Search phase outcome inside the top-level try of performSearch. -/
inductive AttemptOutcome where
  | retry : AttemptOutcome
  | done : List SearchResult → AttemptOutcome
  | err : String → AttemptOutcome
deriving DecidableEq, Repr

/-- CAPTCHA recovery policy at checkpoints 1 and 2 (lines 409-493 and
543-632).  Headless with an external browser: launch a throwaway visible
browser (whose failures rethrow into the outer catch), close it, and retry
the whole search in visible mode.  Headless self-owned: close and retry in
visible mode.  Already visible: block on waitForNavigation (timeout twice
the configured budget; a timeout throws into the outer catch), then
continue.  Returns none when the attempt continues past the checkpoint. -/
def captchaRecover (headless provided : Bool) (tempFails waitFails : Option String) :
    Option AttemptOutcome :=
  if headless then
    if provided then
      match tempFails with
      | some m => some (.err m)
      | none => some .retry
    else some .retry
  else
    match waitFails with
    | some m => some (.err m)
    | none => none

/-- Result-container wait (lines 645-774): if no selector matches, a final
CAPTCHA check runs; in visible mode a successful user resolution re-runs the
selector loop once, and exhausting it is fatal. -/
def resultsWaitOutcome (a : AttemptEnv) (headless provided : Bool) :
    Option AttemptOutcome :=
  if a.resultsFound1 then none
  else if blockedUrl a.urlAtResults then
    if headless then
      if provided then
        match a.temp3Fails with
        | some m => some (.err m)
        | none => some .retry
      else some .retry
    else
      match a.wait3Fails with
      | some m => some (.err m)
      | none =>
        if a.resultsFound2 then none
        else some (.err "Could not find search result elements")
  else some (.err "Could not find search result elements")

/-- Extraction phase (lines 798-897): structured strategies first, the
generic anchor scan when they all came up empty (its $$eval is not wrapped,
so its failure reaches the outer catch). -/
def extractPhase (a : AttemptEnv) (limit : Nat) : AttemptOutcome :=
  if (tryStructured a.structured limit).length = 0 then
    match a.fallback with
    | .error m => .err m
    | .ok els => .done (extractFallback els limit)
  else .done (tryStructured a.structured limit)

/-- One pass through the body of the top-level try of performSearch
(lines 371-899), from navigation to extraction. -/
def runAttempt (a : AttemptEnv) (headless provided : Bool) (limit : Nat) :
    AttemptOutcome :=
  match a.gotoFails with
  | some m => .err m
  | none =>
    match (if isBlockedNav a then
            captchaRecover headless provided a.temp1Fails a.wait1Fails
           else none) with
    | some o => o
    | none =>
      if a.searchBoxFound = false then .err "Could not find search box"
      else
        match a.submitFails with
        | some m => .err m
        | none =>
          match (if blockedUrl a.searchUrl then
                  captchaRecover headless provided a.temp2Fails a.wait2Fails
                 else none) with
          | some o => o
          | none =>
            match resultsWaitOutcome a headless provided with
            | some o => o
            | none => extractPhase a limit

/-- State saving (success path lines 901-932, error path lines 950-974; both
run the same logic): skipped entirely under noSaveState; a storageState
failure is caught and skips the fingerprint write too; a fingerprint write
failure is caught and logged. -/
def saveBrowserState (noSaveState : Bool) (stateFile fingerprintFile : String)
    (st : SavedState) (storageStateFails fingerprintWriteFails : Bool)
    (fs : FileSys) : FileSys :=
  if noSaveState then fs
  else if storageStateFails then fs
  else
    let fs2 := writeFS fs stateFile .snapshot
    if fingerprintWriteFails then fs2
    else writeFS fs2 fingerprintFile (.savedStateJson st)

/-- Per-invocation context of googleSearch after option defaulting. -/
structure RunCtx where
  query : String
  limit : Nat
  stateFile : String
  fingerprintFile : String
  noSaveState : Bool
  debug : Bool
  locale : String
  browserWasProvided : Bool
  host : HostSignals

/-- The fingerprint synthesized for this run when none was persisted
(line 277: getHostMachineConfig(locale)). -/
def synthesizedFingerprint (ctx : RunCtx) : FingerprintConfig :=
  getHostMachineConfig (some ctx.locale) ctx.host.envLang
    ctx.host.timezoneOffset ctx.host.hour ctx.host.platform

/-- Fingerprint staging (lines 265-302): when no saved fingerprint exists,
the host-derived one is staged into savedState for persistence. -/
def stageFingerprint (ctx : RunCtx) (st : SavedState) : SavedState :=
  match st.fingerprint with
  | some _ => st
  | none => { st with fingerprint := some (synthesizedFingerprint ctx) }

/-- Domain staging (lines 374-383): reuse the saved Google domain or pick a
pseudo-random one and stage it. -/
def stageDomain (a : AttemptEnv) (st : SavedState) : SavedState :=
  match st.googleDomain with
  | some _ => st
  | none =>
    let d := googleDomains.getD (a.randDomain % googleDomains.length) ""
    { st with googleDomain := some d }

/-- The synthetic diagnostic result built by the top-level catch
(lines 985-996). -/
def failureResult (m : String) : SearchResult :=
  { title := "Search failed", link := "",
    snippet := "Unable to complete search, error message: " ++ m }

/-- Observable outcome of one googleSearch run: the response, the final
filesystem, whether the browser was closed at the end, the final staged
savedState, whether the run ended in the top-level catch, and the index of
the attempt that produced the outcome. -/
structure RunOutcome where
  response : SearchResponse
  fs : FileSys
  browserClosedAtEnd : Bool
  finalState : SavedState
  errored : Bool
  finalAttempt : Nat
deriving DecidableEq, Repr

/-- performSearch (lines 206-998) with explicit state passing.  The oracle
env gives the external events of each attempt; fuel bounds the CAPTCHA retry
recursion (none = the recursion would still be running after fuel attempts).
Both exits run the same save logic and the same close/keep-open decision. -/
def performSearch (ctx : RunCtx) (env : Nat → AttemptEnv) :
    Nat → Nat → Bool → SavedState → FileSys → Option RunOutcome
  | 0, _, _, _, _ => none
  | fuel + 1, i, headless, st, fs =>
    let a := env i
    let st1 := stageFingerprint ctx st
    let st2 := stageDomain a st1
    match runAttempt a headless ctx.browserWasProvided ctx.limit with
    | .retry => performSearch ctx env fuel (i + 1) false st2 fs
    | .done rs =>
      some { response := { query := ctx.query, results := rs }
             fs := saveBrowserState ctx.noSaveState ctx.stateFile
               ctx.fingerprintFile st2 a.storageStateFails
               a.fingerprintWriteFails fs
             browserClosedAtEnd := !ctx.browserWasProvided && !ctx.debug
             finalState := st2, errored := false, finalAttempt := i }
    | .err m =>
      some { response := { query := ctx.query, results := [failureResult m] }
             fs := saveBrowserState ctx.noSaveState ctx.stateFile
               ctx.fingerprintFile st2 a.storageStateFails
               a.fingerprintWriteFails fs
             browserClosedAtEnd := !ctx.browserWasProvided && !ctx.debug
             finalState := st2, errored := true, finalAttempt := i }

/-- The state file path after option defaulting (line 117). -/
def resolvedStateFile (opts : SearchOptions) (host : HostSignals) : String :=
  opts.stateFile.getD
    (getStateFilePath host.envStoragePath host.homedir "browser-state.json")

/-- The fingerprint sidecar path derivation (line 132). -/
def resolvedFingerprintFile (opts : SearchOptions) (host : HostSignals) : String :=
  replaceFirst (resolvedStateFile opts host) ".json" "-fingerprint.json"

/-- googleSearch (lines 108-1002): default the options, load saved state and
fingerprint, and run performSearch starting in headless mode unless debug. -/
def googleSearch (query : String) (opts : SearchOptions)
    (existingBrowser : Bool) (host : HostSignals) (env : Nat → AttemptEnv)
    (fs : FileSys) (fuel : Nat) : Option RunOutcome :=
  let stateFile := resolvedStateFile opts host
  let fingerprintFile := resolvedFingerprintFile opts host
  let useHeadless := !(opts.debug.getD false)
  let savedState := (loadSavedState fs stateFile fingerprintFile).1
  let ctx : RunCtx :=
    { query := query, limit := opts.limit.getD 10, stateFile := stateFile,
      fingerprintFile := fingerprintFile,
      noSaveState := opts.noSaveState.getD false,
      debug := opts.debug.getD false, locale := opts.locale.getD "en-US",
      browserWasProvided := existingBrowser, host := host }
  performSearch ctx env fuel 0 useHeadless savedState fs

/-- Per-query state file in multiGoogleSearch (lines 1057-1062): append the
index to the path given by the caller (JavaScript truthiness on options.stateFile), or
use an indexed default name. -/
def perQueryStateFile (opts : SearchOptions) (host : HostSignals) (i : Nat) :
    String :=
  let base := opts.stateFile.getD ""
  if base != "" then base ++ "-" ++ toString i
  else
    getStateFilePath host.envStoragePath host.homedir
      ("browser-state-" ++ toString i ++ ".json")

/-- The per-index googleSearch tasks spawned by multiGoogleSearch
(lines 1055-1067), each against the shared browser and the initial
filesystem (per-query state files are distinct paths). -/
def multiRuns (opts : SearchOptions) (host : HostSignals)
    (envs : Nat → Nat → AttemptEnv) (fs : FileSys) (fuel : Nat) :
    Nat → List String → List (Option RunOutcome)
  | _, [] => []
  | i, q :: rest =>
    googleSearch q
        ({ opts with stateFile := some (perQueryStateFile opts host i) })
        true host (envs i) fs fuel
      :: multiRuns opts host envs fs fuel (i + 1) rest

/-- Promise.all over a list of possibly-diverging tasks: none if any task
never settles, else the list of results in order. -/
def sequenceOptions {α : Type} : List (Option α) → Option (List α)
  | [] => some []
  | none :: _ => none
  | some a :: rest => (sequenceOptions rest).map (a :: ·)

/-- multiGoogleSearch (lines 1010-1080): throw on an empty query list, else
run one googleSearch per query concurrently over a shared browser and return
the responses in input order.  The outer Option is divergence of the whole
call; the Except is the thrown exception channel. -/
def multiGoogleSearch (queries : List String) (opts : SearchOptions)
    (host : HostSignals) (envs : Nat → Nat → AttemptEnv) (fs : FileSys)
    (fuel : Nat) : Option (Except String (List RunOutcome)) :=
  if queries.length = 0 then
    some (.error "At least one search query is required")
  else
    (sequenceOptions (multiRuns opts host envs fs fuel 0 queries)).map .ok

/-- Concrete host signals used by the witnesses. -/
def sampleHost : HostSignals :=
  { envLang := none, envStoragePath := none, homedir := "/home/u",
    timezoneOffset := 300, hour := 12, platform := "linux" }

/-- Concrete attempt oracle for a clean successful run: no CAPTCHA, the
first structured strategy yields one well-formed element. -/
def sampleAttempt : AttemptEnv :=
  { gotoFails := none, navUrl := "https://www.google.com/", respUrl := none,
    temp1Fails := none, wait1Fails := none,
    searchBoxFound := true, submitFails := none,
    searchUrl := "https://www.google.com/search?q=a",
    temp2Fails := none, wait2Fails := none,
    resultsFound1 := true,
    urlAtResults := "https://www.google.com/search?q=a",
    temp3Fails := none, wait3Fails := none, resultsFound2 := true,
    structured := [some [{ titleText := some "T",
                           anchorHref := some "http://example.com/",
                           snippetText := some "S" }]],
    fallback := .ok [],
    storageStateFails := false, fingerprintWriteFails := false,
    randDomain := 0 }

/-- Concrete attempt oracle for a fatally failing run: the search box is
never found, so the attempt throws into the top-level catch. -/
def sampleAttemptNoBox : AttemptEnv :=
  { sampleAttempt with searchBoxFound := false }

/-- The fingerprint synthesized from sampleHost with the default locale. -/
def sampleConfig : FingerprintConfig :=
  { deviceName := "Desktop Chrome", locale := "en-US",
    timezoneId := "America/New_York", colorScheme := "light",
    reducedMotion := "no-preference", forcedColors := "none" }

/-- The outcome of the clean successful sample run. -/
def sampleOutcome : RunOutcome :=
  { response := { query := "q",
                  results := [{ title := "T", link := "http://example.com/",
                                snippet := "S" }] }
    fs := []
    browserClosedAtEnd := true
    finalState := { fingerprint := some sampleConfig,
                    googleDomain := some "https://www.google.com" }
    errored := false, finalAttempt := 0 }

/-- A persisted identity distinct from the synthesized one, used to witness
that a sidecar without its snapshot is ignored. -/
def otherSavedState : SavedState :=
  { fingerprint := some { sampleConfig with deviceName := "Desktop Firefox" },
    googleDomain := some "https://www.google.ca" }

/-- Options with a limit of zero, used by the C4 counterexample. -/
def limitZeroOpts : SearchOptions :=
  { limit := some 0, stateFile := some "s.json", noSaveState := some true }

/-- A filesystem holding a snapshot and an unparsable identity sidecar. -/
def corruptFS : FileSys :=
  [("s.json", .snapshot), ("s-fingerprint.json", .malformed)]

/-- A filesystem holding a valid identity sidecar but no snapshot. -/
def sidecarOnlyFS : FileSys :=
  [("s-fingerprint.json", .savedStateJson otherSavedState)]

/-! Lemmas about the extraction pipeline. -/

theorem mem_extractStructured {els : List RawElement} {l : Nat}
    {r : SearchResult} (h : r ∈ extractStructured els l) :
    r.title ≠ "" ∧ r.link ≠ "" := by
  unfold extractStructured at h
  have hp := (List.mem_filter.mp h).2
  simpa [bne_iff_ne] using hp

theorem length_extractStructured (els : List RawElement) (l : Nat) :
    (extractStructured els l).length ≤ l := by
  unfold extractStructured
  refine le_trans (List.length_filter_le _ _) ?_
  rw [List.length_map, List.length_take]
  exact min_le_left _ _

theorem mem_tryStructured {ss : List (Option (List RawElement))} {l : Nat}
    {r : SearchResult} (h : r ∈ tryStructured ss l) :
    r.title ≠ "" ∧ r.link ≠ "" := by
  induction ss with
  | nil => simp [tryStructured] at h
  | cons s rest ih =>
    cases s with
    | none => exact ih (by simpa [tryStructured] using h)
    | some els =>
      simp only [tryStructured] at h
      split at h
      · exact mem_extractStructured h
      · exact ih h

theorem length_tryStructured (ss : List (Option (List RawElement))) (l : Nat) :
    (tryStructured ss l).length ≤ l := by
  induction ss with
  | nil => simp [tryStructured]
  | cons s rest ih =>
    cases s with
    | none => simpa [tryStructured] using ih
    | some els =>
      simp only [tryStructured]
      split
      · exact length_extractStructured els l
      · exact ih

theorem mem_extractFallback {els : List FallbackAnchor} {l : Nat}
    {r : SearchResult} (h : r ∈ extractFallback els l) :
    r.title ≠ "" ∧ r.link ≠ "" := by
  unfold extractFallback at h
  have hp := (List.mem_filter.mp h).2
  simpa [bne_iff_ne] using hp

theorem length_extractFallback (els : List FallbackAnchor) (l : Nat) :
    (extractFallback els l).length ≤ l := by
  unfold extractFallback
  refine le_trans (List.length_filter_le _ _) ?_
  rw [List.length_map, List.length_take]
  exact min_le_left _ _

/-! Lemmas about one attempt of performSearch. -/

theorem captchaRecover_ne_done {hd p : Bool} {t w : Option String}
    {rs : List SearchResult} :
    captchaRecover hd p t w ≠ some (.done rs) := by
  unfold captchaRecover
  split_ifs <;> cases t <;> cases w <;> simp

theorem captchaRecover_visible_ne_retry {p : Bool} {t w : Option String} :
    captchaRecover false p t w ≠ some .retry := by
  unfold captchaRecover
  cases w <;> simp

theorem resultsWaitOutcome_ne_done {a : AttemptEnv} {hd p : Bool}
    {rs : List SearchResult} :
    resultsWaitOutcome a hd p ≠ some (.done rs) := by
  unfold resultsWaitOutcome
  split_ifs <;> cases a.temp3Fails <;> cases a.wait3Fails <;> simp

theorem resultsWaitOutcome_visible_ne_retry {a : AttemptEnv} {p : Bool} :
    resultsWaitOutcome a false p ≠ some .retry := by
  unfold resultsWaitOutcome
  split_ifs <;> cases a.temp3Fails <;> cases a.wait3Fails <;> simp_all

theorem extractPhase_ne_retry (a : AttemptEnv) (l : Nat) :
    extractPhase a l ≠ .retry := by
  unfold extractPhase
  intro hc
  split at hc
  · split at hc <;> cases hc
  · cases hc

theorem extractPhase_done_mem {a : AttemptEnv} {l : Nat}
    {rs : List SearchResult} (h : extractPhase a l = .done rs) :
    ∀ r ∈ rs, r.title ≠ "" ∧ r.link ≠ "" := by
  unfold extractPhase at h
  split at h
  · split at h
    · cases h
    · cases h
      exact fun r hr => mem_extractFallback hr
  · cases h
    exact fun r hr => mem_tryStructured hr

theorem extractPhase_done_length {a : AttemptEnv} {l : Nat}
    {rs : List SearchResult} (h : extractPhase a l = .done rs) :
    rs.length ≤ l := by
  unfold extractPhase at h
  split at h
  · split at h
    · cases h
    · cases h
      exact length_extractFallback _ l
  · cases h
    exact length_tryStructured a.structured l

theorem runAttempt_visible_ne_retry (a : AttemptEnv) (p : Bool) (l : Nat) :
    runAttempt a false p l ≠ .retry := by
  unfold runAttempt
  cases a.gotoFails with
  | some m => simp
  | none =>
    simp only
    split
    · next o heq =>
      split at heq
      · intro hc
        rw [hc] at heq
        exact captchaRecover_visible_ne_retry heq
      · cases heq
    · split
      · simp
      · cases a.submitFails with
        | some m => simp
        | none =>
          simp only
          split
          · next o heq =>
            split at heq
            · intro hc
              rw [hc] at heq
              exact captchaRecover_visible_ne_retry heq
            · cases heq
          · split
            · next o heq =>
              intro hc
              rw [hc] at heq
              exact resultsWaitOutcome_visible_ne_retry heq
            · exact extractPhase_ne_retry a l

theorem runAttempt_done_mem {a : AttemptEnv} {hd p : Bool} {l : Nat}
    {rs : List SearchResult} (h : runAttempt a hd p l = .done rs) :
    ∀ r ∈ rs, r.title ≠ "" ∧ r.link ≠ "" := by
  unfold runAttempt at h
  split at h
  · cases h
  · split at h
    · next o heq =>
      split at heq
      · subst h
        exact absurd heq captchaRecover_ne_done
      · cases heq
    · split at h
      · cases h
      · split at h
        · cases h
        · split at h
          · next o heq =>
            split at heq
            · subst h
              exact absurd heq captchaRecover_ne_done
            · cases heq
          · split at h
            · next o heq =>
              subst h
              exact absurd heq resultsWaitOutcome_ne_done
            · exact extractPhase_done_mem h

theorem runAttempt_done_length {a : AttemptEnv} {hd p : Bool} {l : Nat}
    {rs : List SearchResult} (h : runAttempt a hd p l = .done rs) :
    rs.length ≤ l := by
  unfold runAttempt at h
  split at h
  · cases h
  · split at h
    · next o heq =>
      split at heq
      · subst h
        exact absurd heq captchaRecover_ne_done
      · cases heq
    · split at h
      · cases h
      · split at h
        · cases h
        · split at h
          · next o heq =>
            split at heq
            · subst h
              exact absurd heq captchaRecover_ne_done
            · cases heq
          · split at h
            · next o heq =>
              subst h
              exact absurd heq resultsWaitOutcome_ne_done
            · exact extractPhase_done_length h

/-! Lemmas about the run loop of performSearch. -/

theorem stageFingerprint_fp (ctx : RunCtx) (st : SavedState) :
    (stageFingerprint ctx st).fingerprint =
      some (st.fingerprint.getD (synthesizedFingerprint ctx)) := by
  unfold stageFingerprint
  cases hf : st.fingerprint <;> simp [hf]

theorem stageDomain_fp (a : AttemptEnv) (st : SavedState) :
    (stageDomain a st).fingerprint = st.fingerprint := by
  unfold stageDomain
  cases hd : st.googleDomain <;> simp [hd]

theorem saveBrowserState_skip (sf ff : String) (st : SavedState)
    (b1 b2 : Bool) (fs : FileSys) :
    saveBrowserState true sf ff st b1 b2 fs = fs := by
  unfold saveBrowserState
  simp

/-- Master invariant of the performSearch run loop: whenever the loop
returns an outcome, the response carries the query, the close/keep-open
decision is the one fixed formula on both exits, the final filesystem is the
save routine applied to the final staged state and the oracle of the final attempt, the catch path yields exactly one diagnostic result, the success
path yields filtered results bounded by the limit, and the final staged
fingerprint is the loaded one or, failing that, the synthesized one. -/
theorem performSearch_props (ctx : RunCtx) (env : Nat → AttemptEnv) :
    ∀ (fuel i : Nat) (hd : Bool) (st : SavedState) (fs : FileSys)
      (out : RunOutcome), performSearch ctx env fuel i hd st fs = some out →
      out.response.query = ctx.query ∧
      out.browserClosedAtEnd = (!ctx.browserWasProvided && !ctx.debug) ∧
      out.fs = saveBrowserState ctx.noSaveState ctx.stateFile
        ctx.fingerprintFile out.finalState
        (env out.finalAttempt).storageStateFails
        (env out.finalAttempt).fingerprintWriteFails fs ∧
      (out.errored = true → ∃ m, out.response.results = [failureResult m]) ∧
      (out.errored = false →
        ∀ r ∈ out.response.results, r.title ≠ "" ∧ r.link ≠ "") ∧
      (out.errored = false → out.response.results.length ≤ ctx.limit) ∧
      (out.errored = true → out.response.results.length = 1) ∧
      out.finalState.fingerprint =
        some (st.fingerprint.getD (synthesizedFingerprint ctx)) := by
  intro fuel
  induction fuel with
  | zero =>
    intro i hd st fs out h
    exact absurd h (by simp [performSearch])
  | succ fuel ih =>
    intro i hd st fs out h
    simp only [performSearch] at h
    split at h
    · next heq =>
      have hprops := ih (i + 1) false
        (stageDomain (env i) (stageFingerprint ctx st)) fs out h
      refine ⟨hprops.1, hprops.2.1, hprops.2.2.1, hprops.2.2.2.1,
        hprops.2.2.2.2.1, hprops.2.2.2.2.2.1, hprops.2.2.2.2.2.2.1, ?_⟩
      have hfp := hprops.2.2.2.2.2.2.2
      rw [stageDomain_fp, stageFingerprint_fp] at hfp
      simpa using hfp
    · next rs heq =>
      cases h
      refine ⟨rfl, rfl, rfl, by simp, ?_, ?_, by simp, ?_⟩
      · intro _ r hr
        exact runAttempt_done_mem heq r hr
      · intro _
        exact runAttempt_done_length heq
      · rw [stageDomain_fp, stageFingerprint_fp]
    · next m heq =>
      cases h
      refine ⟨rfl, rfl, rfl, fun _ => ⟨m, rfl⟩, by simp, by simp, fun _ => rfl, ?_⟩
      rw [stageDomain_fp, stageFingerprint_fp]

/-- In visible mode the run loop finishes within one attempt: visible-mode
CAPTCHA handling waits instead of retrying. -/
theorem performSearch_visible_total (ctx : RunCtx) (env : Nat → AttemptEnv)
    (fuel i : Nat) (st : SavedState) (fs : FileSys) :
    (performSearch ctx env (fuel + 1) i false st fs).isSome = true := by
  simp only [performSearch]
  split
  · next heq => exact absurd heq (runAttempt_visible_ne_retry _ _ _)
  · simp
  · simp

/-- Two attempts always suffice: a headless attempt either finishes or
retries once in visible mode, and a visible attempt finishes. -/
theorem performSearch_total_two (ctx : RunCtx) (env : Nat → AttemptEnv)
    (i : Nat) (hd : Bool) (st : SavedState) (fs : FileSys) :
    (performSearch ctx env 2 i hd st fs).isSome = true := by
  show (performSearch ctx env (1 + 1) i hd st fs).isSome = true
  simp only [performSearch]
  split
  · exact performSearch_visible_total ctx env 0 (i + 1) _ fs
  · simp
  · simp

/-- googleSearch always settles with two attempts of fuel. -/
theorem googleSearch_total_two (q : String) (opts : SearchOptions)
    (eb : Bool) (host : HostSignals) (env : Nat → AttemptEnv) (fs : FileSys) :
    (googleSearch q opts eb host env fs 2).isSome = true := by
  unfold googleSearch
  exact performSearch_total_two _ env 0 _ _ fs

/-- performSearch_props transported through the googleSearch wrapper, with
the options defaulted exactly as in the source. -/
theorem googleSearch_props {q : String} {opts : SearchOptions} {eb : Bool}
    {host : HostSignals} {env : Nat → AttemptEnv} {fs : FileSys} {fuel : Nat}
    {out : RunOutcome} (h : googleSearch q opts eb host env fs fuel = some out) :
    out.response.query = q ∧
    out.browserClosedAtEnd = (!eb && !(opts.debug.getD false)) ∧
    out.fs = saveBrowserState (opts.noSaveState.getD false)
      (resolvedStateFile opts host) (resolvedFingerprintFile opts host)
      out.finalState (env out.finalAttempt).storageStateFails
      (env out.finalAttempt).fingerprintWriteFails fs ∧
    (out.errored = true → ∃ m, out.response.results = [failureResult m]) ∧
    (out.errored = false →
      ∀ r ∈ out.response.results, r.title ≠ "" ∧ r.link ≠ "") ∧
    (out.errored = false → out.response.results.length ≤ opts.limit.getD 10) ∧
    (out.errored = true → out.response.results.length = 1) ∧
    out.finalState.fingerprint =
      some (((loadSavedState fs (resolvedStateFile opts host)
          (resolvedFingerprintFile opts host)).1.fingerprint).getD
        (getHostMachineConfig (some (opts.locale.getD "en-US")) host.envLang
          host.timezoneOffset host.hour host.platform)) := by
  unfold googleSearch at h
  exact performSearch_props _ env fuel 0 _ _ fs out h

/-- Every task spawned by multiGoogleSearch settles with fuel 2, and the
collected list pairs each input query with its own response, in order. -/
theorem multiRuns_spec (opts : SearchOptions) (host : HostSignals)
    (envs : Nat → Nat → AttemptEnv) (fs : FileSys) :
    ∀ (qs : List String) (i : Nat),
      ∃ outs, sequenceOptions (multiRuns opts host envs fs 2 i qs) = some outs ∧
        outs.length = qs.length ∧
        ∀ (j : Nat) (h1 : j < outs.length) (h2 : j < qs.length),
          (outs.get ⟨j, h1⟩).response.query = qs.get ⟨j, h2⟩ := by
  intro qs
  induction qs with
  | nil =>
    intro i
    exact ⟨[], rfl, rfl, fun j h1 => absurd h1 (by simp)⟩
  | cons q rest ih =>
    intro i
    obtain ⟨out, hout⟩ := Option.isSome_iff_exists.mp
      (googleSearch_total_two q
        ({ opts with stateFile := some (perQueryStateFile opts host i) })
        true host (envs i) fs)
    obtain ⟨outs, hseq, hlen, hget⟩ := ih (i + 1)
    refine ⟨out :: outs, ?_, by simp [hlen], ?_⟩
    · simp [multiRuns, hout, sequenceOptions, hseq]
    · intro j h1 h2
      cases j with
      | zero => exact (googleSearch_props hout).1
      | succ j => exact hget j (by simpa using h1) (by simpa using h2)

/-! Claim theorems. -/

/-- C1: a single-query run of googleSearch never propagates an exception to
the caller: every attempt-level exception is caught at the top level, the
error path runs the same best-effort save routine and takes the same
close/keep-open decision as the success path, and the returned
SearchResponse carries the query with a single result encoding the error
message. -/
theorem googleSearch_failure_semantics :
    ∀ (q : String) (opts : SearchOptions) (eb : Bool) (host : HostSignals)
      (env : Nat → AttemptEnv) (fs : FileSys),
      ∃ out, googleSearch q opts eb host env fs 2 = some out ∧
        out.response.query = q ∧
        out.browserClosedAtEnd = (!eb && !(opts.debug.getD false)) ∧
        (out.errored = true →
          (∃ m, out.response.results = [failureResult m]) ∧
          out.fs = saveBrowserState (opts.noSaveState.getD false)
            (resolvedStateFile opts host) (resolvedFingerprintFile opts host)
            out.finalState (env out.finalAttempt).storageStateFails
            (env out.finalAttempt).fingerprintWriteFails fs) := by
  intro q opts eb host env fs
  obtain ⟨out, hout⟩ := Option.isSome_iff_exists.mp
    (googleSearch_total_two q opts eb host env fs)
  have hp := googleSearch_props hout
  exact ⟨out, hout, hp.1, hp.2.1, fun he => ⟨hp.2.2.2.1 he, hp.2.2.1⟩⟩

/-- Witness for C1 at a concrete fatally-failing run. -/
theorem googleSearch_failure_semantics_witness :
    ∃ out, googleSearch "q" { stateFile := some "s.json" } false sampleHost
        (fun _ => sampleAttemptNoBox) ([] : FileSys) 2 = some out ∧
      out.response.query = "q" ∧
      out.browserClosedAtEnd = true ∧
      (out.errored = true →
        (∃ m, out.response.results = [failureResult m]) ∧
        out.fs = saveBrowserState false
          (resolvedStateFile { stateFile := some "s.json" } sampleHost)
          (resolvedFingerprintFile { stateFile := some "s.json" } sampleHost)
          out.finalState sampleAttemptNoBox.storageStateFails
          sampleAttemptNoBox.fingerprintWriteFails ([] : FileSys)) :=
  googleSearch_failure_semantics "q" { stateFile := some "s.json" } false
    sampleHost (fun _ => sampleAttemptNoBox) []

/-- C2: multiGoogleSearch throws exactly on an empty query list; otherwise
it returns one response per input query, in input order, each slot holding
the response of its own query (a fatal failure surfaces only as the diagnostic response
of that slot). -/
theorem multiGoogleSearch_per_query_responses :
    ∀ (queries : List String) (opts : SearchOptions) (host : HostSignals)
      (envs : Nat → Nat → AttemptEnv) (fs : FileSys),
      ((∃ e, multiGoogleSearch queries opts host envs fs 2 = some (.error e)) ↔
        queries = []) ∧
      (queries ≠ [] →
        ∃ outs,
          multiGoogleSearch queries opts host envs fs 2 = some (.ok outs) ∧
          outs.length = queries.length ∧
          ∀ (i : Nat) (h1 : i < outs.length) (h2 : i < queries.length),
            (outs.get ⟨i, h1⟩).response.query = queries.get ⟨i, h2⟩) := by
  intro queries opts host envs fs
  obtain ⟨outs, hseq, hlen, hget⟩ := multiRuns_spec opts host envs fs queries 0
  constructor
  · constructor
    · rintro ⟨e, he⟩
      by_contra hne
      have hq : queries.length ≠ 0 := fun h0 => hne (List.length_eq_zero.mp h0)
      unfold multiGoogleSearch at he
      rw [if_neg hq, hseq] at he
      simp at he
    · rintro rfl
      exact ⟨"At least one search query is required", rfl⟩
  · intro hne
    refine ⟨outs, ?_, hlen, hget⟩
    unfold multiGoogleSearch
    rw [if_neg (fun h0 => hne (List.length_eq_zero.mp h0)), hseq]
    rfl

/-- Witness for C2: two queries, the first failing fatally, still yield an
ordered pair of responses. -/
theorem multiGoogleSearch_per_query_responses_witness :
    ∃ outs,
      multiGoogleSearch ["a", "b"] {} sampleHost
          (fun i _ => if i = 0 then sampleAttemptNoBox else sampleAttempt)
          ([] : FileSys) 2 = some (.ok outs) ∧
      outs.length = (["a", "b"] : List String).length ∧
      ∀ (i : Nat) (h1 : i < outs.length)
        (h2 : i < (["a", "b"] : List String).length),
        (outs.get ⟨i, h1⟩).response.query =
          (["a", "b"] : List String).get ⟨i, h2⟩ :=
  (multiGoogleSearch_per_query_responses ["a", "b"] {} sampleHost
      (fun i _ => if i = 0 then sampleAttemptNoBox else sampleAttempt) []).2
    (by decide)

/-- C3 counterexample: a fatally failing run returns a result whose link is
the empty string, so not every returned result has a non-empty link. -/
theorem returned_result_empty_link_cex :
    (googleSearch "q" { stateFile := some "s.json", noSaveState := some true }
        false sampleHost (fun _ => sampleAttemptNoBox) [] 2).map
        (fun o => o.response.results) =
      some [{ title := "Search failed", link := "",
              snippet := "Unable to complete search, error message: Could not find search box" }] := by
  rfl

/-- C3 amended: every SearchResult produced by the extraction pipeline
(structured strategies or fallback anchor scan, i.e. every non-failure-path
response) has a non-empty title and a non-empty link; the failure-path
diagnostic result instead has a non-empty title but an empty link. -/
theorem extracted_results_nonempty_title_link :
    ∀ (q : String) (opts : SearchOptions) (eb : Bool) (host : HostSignals)
      (env : Nat → AttemptEnv) (fs : FileSys) (fuel : Nat) (out : RunOutcome),
      googleSearch q opts eb host env fs fuel = some out →
      out.errored = false →
      ∀ r ∈ out.response.results, r.title ≠ "" ∧ r.link ≠ "" := by
  intro q opts eb host env fs fuel out h he
  exact (googleSearch_props h).2.2.2.2.1 he

/-- Witness for the amended C3 at a concrete successful run. -/
theorem extracted_results_nonempty_title_link_witness :
    ({ title := "T", link := "http://example.com/",
       snippet := "S" } : SearchResult).title ≠ "" ∧
    ({ title := "T", link := "http://example.com/",
       snippet := "S" } : SearchResult).link ≠ "" :=
  extracted_results_nonempty_title_link "q"
    { stateFile := some "s.json", noSaveState := some true } false sampleHost
    (fun _ => sampleAttempt) [] 2 sampleOutcome (by rfl) rfl
    { title := "T", link := "http://example.com/", snippet := "S" }
    (by simp [sampleOutcome])

/-- C4 counterexample: with limit 0, a fatally failing run still returns the
single diagnostic result, so the length bound fails. -/
theorem limit_bound_cex :
    (googleSearch "q" limitZeroOpts false sampleHost
        (fun _ => sampleAttemptNoBox) [] 2).map
      (fun o => o.response.results.length) = some 1 ∧
    ¬ (1 ≤ limitZeroOpts.limit.getD 10) :=
  ⟨by rfl, by decide⟩

/-- C4 amended: whenever the effective limit (options.limit, default 10) is
at least 1, every response of googleSearch, the synthetic diagnostic one
included, has at most limit results. -/
theorem results_length_le_limit :
    ∀ (q : String) (opts : SearchOptions) (eb : Bool) (host : HostSignals)
      (env : Nat → AttemptEnv) (fs : FileSys) (fuel : Nat) (out : RunOutcome),
      1 ≤ opts.limit.getD 10 →
      googleSearch q opts eb host env fs fuel = some out →
      out.response.results.length ≤ opts.limit.getD 10 := by
  intro q opts eb host env fs fuel out hl h
  have hp := googleSearch_props h
  cases he : out.errored with
  | false => exact hp.2.2.2.2.2.1 he
  | true =>
    rw [hp.2.2.2.2.2.2.1 he]
    exact hl

/-- Witness for the amended C4 at a concrete run with the default limit. -/
theorem results_length_le_limit_witness :
    sampleOutcome.response.results.length ≤ 10 :=
  results_length_le_limit "q"
    { stateFile := some "s.json", noSaveState := some true } false sampleHost
    (fun _ => sampleAttempt) [] 2 sampleOutcome (by decide) (by rfl)

/-- C5 counterexample: no oracle whatsoever makes the CAPTCHA-retry
recursion of performSearch repeat without bound, because two attempts of
fuel always suffice — the negation of the claimed unbounded-retry
possibility. -/
theorem captcha_retry_not_unbounded :
    ¬ ∃ (q : String) (opts : SearchOptions) (eb : Bool) (host : HostSignals)
        (env : Nat → AttemptEnv) (fs : FileSys),
        ∀ fuel : Nat, googleSearch q opts eb host env fs fuel = none := by
  rintro ⟨q, opts, eb, host, env, fs, hall⟩
  have h2 := googleSearch_total_two q opts eb host env fs
  rw [hall 2] at h2
  cases h2

/-- C5 amended: the CAPTCHA-retry path performs at most one retry — the
first retry switches to visible mode and visible-mode attempts never retry,
so every run settles within two attempts for every sequence of CAPTCHA
responses. -/
theorem captcha_retry_bounded_two_attempts :
    ∀ (q : String) (opts : SearchOptions) (eb : Bool) (host : HostSignals)
      (env : Nat → AttemptEnv) (fs : FileSys),
      (googleSearch q opts eb host env fs 2).isSome = true := by
  intro q opts eb host env fs
  exact googleSearch_total_two q opts eb host env fs

/-- C6 counterexample: at offset −480 the code maps to Asia/Shanghai while
the claimed table maps to Asia/Bangkok. -/
theorem timezone_table_cex :
    (getHostMachineConfig none none (-480) 12 "linux").timezoneId =
        "Asia/Shanghai" ∧
    claimedTimezoneTable (-480) = "Asia/Bangkok" ∧
    ("Asia/Shanghai" : String) ≠ "Asia/Bangkok" :=
  ⟨rfl, rfl, by decide⟩

/-- C6 amended: the timezone mapping uses intervals closed on the right:
(−600,−480] → Asia/Shanghai, otherwise ≤ −600 → Asia/Tokyo,
(−480,−420] → Asia/Bangkok, (−60,0] → Europe/London,
(0,60] → Europe/Berlin, (240,300] → America/New_York, and every unmatched
offset yields America/New_York. -/
theorem timezone_table_amended :
    ∀ (u e : Option String) (off : Int) (h : Nat) (p : String),
      (getHostMachineConfig u e off h p).timezoneId =
        amendedTimezoneTable off := by
  intro u e off h p
  show tzOfOffset off = amendedTimezoneTable off
  unfold tzOfOffset amendedTimezoneTable
  split_ifs <;> first | rfl | (exfalso; omega)

/-- C7: when the snapshot exists but the identity sidecar fails to parse,
loading yields the empty state with a logged warning (never a thrown
exception), and every completed run uses a freshly synthesized
fingerprint. -/
theorem corrupted_sidecar_resilience :
    ∀ (q : String) (opts : SearchOptions) (eb : Bool) (host : HostSignals)
      (env : Nat → AttemptEnv) (fs : FileSys) (c : FileContent),
      lookupFS fs (resolvedStateFile opts host) = some c →
      lookupFS fs (resolvedFingerprintFile opts host) = some .malformed →
      loadSavedState fs (resolvedStateFile opts host)
          (resolvedFingerprintFile opts host) = ({}, true) ∧
      ∀ (fuel : Nat) (out : RunOutcome),
        googleSearch q opts eb host env fs fuel = some out →
        out.finalState.fingerprint =
          some (getHostMachineConfig (some (opts.locale.getD "en-US"))
            host.envLang host.timezoneOffset host.hour host.platform) := by
  intro q opts eb host env fs c hs hm
  have hload : loadSavedState fs (resolvedStateFile opts host)
      (resolvedFingerprintFile opts host) = ({}, true) := by
    unfold loadSavedState
    rw [hs, hm]
    rfl
  refine ⟨hload, ?_⟩
  intro fuel out h
  have hfp := (googleSearch_props h).2.2.2.2.2.2.2
  rw [hload] at hfp
  simpa using hfp

/-- Witness for C7 at a concrete filesystem with an unparsable sidecar. -/
theorem corrupted_sidecar_resilience_witness :
    loadSavedState corruptFS
        (resolvedStateFile { stateFile := some "s.json" } sampleHost)
        (resolvedFingerprintFile { stateFile := some "s.json" } sampleHost) =
      ({}, true) ∧
    ∀ (fuel : Nat) (out : RunOutcome),
      googleSearch "q" { stateFile := some "s.json" } false sampleHost
          (fun _ => sampleAttempt) corruptFS fuel = some out →
      out.finalState.fingerprint =
        some (getHostMachineConfig (some "en-US") none 300 12 "linux") :=
  corrupted_sidecar_resilience "q" { stateFile := some "s.json" } false
    sampleHost (fun _ => sampleAttempt) corruptFS .snapshot (by rfl) (by rfl)

/-- C8: with noSaveState set, a run writes neither the storage snapshot nor
the fingerprint sidecar, on the success path and on the failure path
alike — the filesystem is returned unchanged. -/
theorem noSaveState_writes_nothing :
    ∀ (q : String) (opts : SearchOptions) (eb : Bool) (host : HostSignals)
      (env : Nat → AttemptEnv) (fs : FileSys) (fuel : Nat) (out : RunOutcome),
      opts.noSaveState.getD false = true →
      googleSearch q opts eb host env fs fuel = some out →
      out.fs = fs := by
  intro q opts eb host env fs fuel out hn h
  have hfs := (googleSearch_props h).2.2.1
  rw [hn] at hfs
  rw [hfs]
  exact saveBrowserState_skip _ _ _ _ _ fs

/-- Witness for C8 at a concrete run. -/
theorem noSaveState_writes_nothing_witness :
    sampleOutcome.fs = ([] : FileSys) :=
  noSaveState_writes_nothing "q"
    { stateFile := some "s.json", noSaveState := some true } false sampleHost
    (fun _ => sampleAttempt) [] 2 sampleOutcome rfl (by rfl)

/-- C9: getHostMachineConfig always reports the Desktop Chrome device: the
platform-based selection is unconditionally overridden. -/
theorem deviceName_always_desktop_chrome :
    ∀ (u e : Option String) (off : Int) (h : Nat) (p : String),
      (getHostMachineConfig u e off h p).deviceName = "Desktop Chrome" := by
  intro u e off h p
  rfl

/-- C10: when the snapshot file is absent the identity sidecar is never
consulted (no parse, no warning, empty loaded state — even for a valid
sidecar), and every completed run synthesizes a fresh fingerprint. -/
theorem sidecar_requires_snapshot :
    ∀ (q : String) (opts : SearchOptions) (eb : Bool) (host : HostSignals)
      (env : Nat → AttemptEnv) (fs : FileSys),
      lookupFS fs (resolvedStateFile opts host) = none →
      loadSavedState fs (resolvedStateFile opts host)
          (resolvedFingerprintFile opts host) = ({}, false) ∧
      ∀ (fuel : Nat) (out : RunOutcome),
        googleSearch q opts eb host env fs fuel = some out →
        out.finalState.fingerprint =
          some (getHostMachineConfig (some (opts.locale.getD "en-US"))
            host.envLang host.timezoneOffset host.hour host.platform) := by
  intro q opts eb host env fs hs
  have hload : loadSavedState fs (resolvedStateFile opts host)
      (resolvedFingerprintFile opts host) = ({}, false) := by
    unfold loadSavedState
    rw [hs]
  refine ⟨hload, ?_⟩
  intro fuel out h
  have hfp := (googleSearch_props h).2.2.2.2.2.2.2
  rw [hload] at hfp
  simpa using hfp

/-- Witness for C10: a valid sidecar with a distinct persisted identity is
ignored when its snapshot is missing. -/
theorem sidecar_requires_snapshot_witness :
    loadSavedState sidecarOnlyFS
        (resolvedStateFile { stateFile := some "s.json" } sampleHost)
        (resolvedFingerprintFile { stateFile := some "s.json" } sampleHost) =
      ({}, false) ∧
    ∀ (fuel : Nat) (out : RunOutcome),
      googleSearch "q" { stateFile := some "s.json" } false sampleHost
          (fun _ => sampleAttempt) sidecarOnlyFS fuel = some out →
      out.finalState.fingerprint =
        some (getHostMachineConfig (some "en-US") none 300 12 "linux") :=
  sidecar_requires_snapshot "q" { stateFile := some "s.json" } false
    sampleHost (fun _ => sampleAttempt) sidecarOnlyFS (by rfl)

end GSearch
